import Mathlib

open scoped List

/-!
Shallow embedding of the action-client correlation core (`src/action_clients.rs`).

Modelling conventions:
* `uuid::Uuid` (128-bit goal identity) is modelled as `Nat`.
* A one-shot or streaming sink (`oneshot::Sender` / `mpsc::Sender`) is modelled
  by an abstract sink identifier `Nat`; whether the consumer side is still
  alive (so that `send` succeeds) is an explicit parameter `alive : Nat → Bool`
  of each handler, and whether a bounded streaming sink currently accepts a
  message (`try_send` succeeds) is a parameter `trySend : Nat → Bool`.
* `i64` correlation ids and `i8`/`i32` codes are modelled as `Int`.
* A Rust `panic!` is modelled by returning `none` from an `Option`-valued
  function.
* The transport (`rcl_action_send_*` / `rcl_action_take_*`) is external: each
  handler takes the already-taken message content as input, and each send
  operation takes the transport's return code and assigned sequence number as
  inputs.
* `Vec::swap_remove` is modelled by `swapRemoveAt`, and the `HashMap` for goal
  status by an association list with unique keys (`upsertStatus`).
-/

/-- Lifecycle state of a goal, from `enum GoalStatus` in the source
(declaration order: Unknown, Accepted, Executing, Canceling, Succeeded,
Canceled, Aborted). -/
inductive GoalStatus where
  | Unknown
  | Accepted
  | Executing
  | Canceling
  | Succeeded
  | Canceled
  | Aborted
deriving Repr, DecidableEq

/-- `GoalStatus::to_rcl` from the source. -/
def GoalStatus.to_rcl : GoalStatus → Int
  | .Unknown => 0
  | .Accepted => 1
  | .Executing => 2
  | .Canceling => 3
  | .Succeeded => 4
  | .Canceled => 5
  | .Aborted => 6

/-- `GoalStatus::from_rcl` from the source: the Rust `match` on the integer
code; the wildcard arm `panic!` is modelled by `none`. -/
def GoalStatus.from_rcl (s : Int) : Option GoalStatus :=
  if s = 0 then some .Unknown
  else if s = 1 then some .Accepted
  else if s = 2 then some .Executing
  else if s = 3 then some .Canceling
  else if s = 4 then some .Succeeded
  else if s = 5 then some .Canceled
  else if s = 6 then some .Aborted
  else none

/-- Error values of the `r2r` error enum that this file's code paths produce.
`from_rcl_error c` stands for `Error::from_rcl_error(c)` applied to a non-OK
transport return code. -/
inductive Error where
  | RCL_RET_CLIENT_INVALID
  | GoalCancelRejected
  | GoalCancelUnknownGoalID
  | GoalCancelAlreadyTerminated
  | from_rcl_error (code : Int)
deriving Repr, DecidableEq

/-- `action_msgs::srv::CancelGoal::Response`: only its `return_code` field is
inspected by this core. -/
structure CancelResponse where
  return_code : Int
deriving Repr, DecidableEq

/-- The in-memory state of `WrappedActionClient<T>`: the three correlation
tables, the two routers and the goal status store.  Sinks are abstract ids;
the generic response/result/feedback payload types of `T` appear only as type
parameters of the handlers that move payloads. -/
structure ActionClientState where
  goal_response_channels : List (Int × Nat)
  cancel_response_channels : List (Int × Nat)
  feedback_senders : List (Nat × Nat)
  result_requests : List (Int × Nat)
  result_senders : List (Nat × Nat)
  goal_status : List (Nat × GoalStatus)
deriving Repr, DecidableEq

/-- `Vec::swap_remove(i)`: remove the element at index `i` by moving the last
element into its place.  Total version; for `i < l.length` it agrees with the
Rust operation (which would panic out of bounds, a case never reached here
because indices come from successful `position` calls). -/
def swapRemoveAt {β : Type} (l : List β) (i : Nat) : List β :=
  match l.getLast? with
  | none => []
  | some b => (l.set i b).dropLast

/-- Observable outcome of one run of a response handler
(`handle_goal_response` / `handle_cancel_response`): the deserialized response
was sent to the matched one-shot sink, or the send failed because the consumer
was gone (logged, not escalated), or no pending entry matched the correlation
id (logged, message discarded). -/
inductive RespEffect (α : Type) where
  | delivered (sink : Nat) (r : α)
  | sendFailed (sink : Nat)
  | noSuchId (seq : Int)
deriving Repr, DecidableEq

/-- Observable outcome of one run of `handle_result_response`. -/
inductive ResultEffect (ρ : Type) where
  | delivered (sink : Nat) (r : ρ)
  | sendFailed (sink : Nat)
  | droppedSink (sink : Nat) (st : GoalStatus)
  | noSink
  | noSuchId (seq : Int)
deriving Repr, DecidableEq

/-- Observable outcome of one run of `handle_feedback_msg`. -/
inductive FeedbackEffect (φ : Type) where
  | delivered (sink : Nat) (f : φ)
  | warnDropped (sink : Nat)
  | discarded
deriving Repr, DecidableEq

/-- Caller-visible outcome of `send_result_request`, whose Rust return type is
`()`: on transport success the pending entry is registered; on failure the
error code is only written to stderr (`eprintln!`) — nothing is returned to
the caller. -/
inductive SendResultEffect where
  | registered (seq : Int)
  | logFailed (code : Int)
deriving Repr, DecidableEq

/-- Transport success code (`RCL_RET_OK`). -/
def RCL_RET_OK : Int := 0

/-- `handle_goal_response` after a successful `rcl_action_take_goal_response`
yielding sequence number `reqId` and deserialized response `resp`: find the
position of the matching pending goal-response entry; if found, `swap_remove`
it and send the response to its sink (a failed send is logged); otherwise log
the unknown id and ignore the message. -/
def handle_goal_response {α : Type} (alive : Nat → Bool) (reqId : Int) (resp : α)
    (s : ActionClientState) : ActionClientState × RespEffect α :=
  match s.goal_response_channels.findIdx? (fun p => p.1 == reqId) with
  | none => (s, RespEffect.noSuchId reqId)
  | some i =>
    ({ s with goal_response_channels := swapRemoveAt s.goal_response_channels i },
     if alive (s.goal_response_channels.getD i (0, 0)).2 then
       RespEffect.delivered (s.goal_response_channels.getD i (0, 0)).2 resp
     else RespEffect.sendFailed (s.goal_response_channels.getD i (0, 0)).2)

/-- `handle_cancel_response` after a successful take yielding sequence number
`reqId` and cancel response `resp`: same matching discipline as
`handle_goal_response`, over the cancel-response table. -/
def handle_cancel_response (alive : Nat → Bool) (reqId : Int) (resp : CancelResponse)
    (s : ActionClientState) : ActionClientState × RespEffect CancelResponse :=
  match s.cancel_response_channels.findIdx? (fun p => p.1 == reqId) with
  | none => (s, RespEffect.noSuchId reqId)
  | some i =>
    ({ s with cancel_response_channels := swapRemoveAt s.cancel_response_channels i },
     if alive (s.cancel_response_channels.getD i (0, 0)).2 then
       RespEffect.delivered (s.cancel_response_channels.getD i (0, 0)).2 resp
     else RespEffect.sendFailed (s.cancel_response_channels.getD i (0, 0)).2)

/-- `handle_feedback_msg` after a successful take, destructured into the goal
uuid and the feedback payload: look up the first feedback sender registered
for the uuid; if present, `try_send` the payload (a full or disconnected sink
drops it with a warning); if absent, silently discard.  The client state is
never modified. -/
def handle_feedback_msg {φ : Type} (trySend : Nat → Bool) (uuid : Nat) (f : φ)
    (s : ActionClientState) : ActionClientState × FeedbackEffect φ :=
  match s.feedback_senders.find? (fun p => p.1 == uuid) with
  | some pr => (s, if trySend pr.2 then FeedbackEffect.delivered pr.2 f
                   else FeedbackEffect.warnDropped pr.2)
  | none => (s, FeedbackEffect.discarded)

/-- One `HashMap` upsert, `*map.entry(u).or_insert(Unknown) = st`, on the
association-list model: overwrite the binding of `u` if present, else append
a new binding. -/
def upsertStatus (l : List (Nat × GoalStatus)) (u : Nat) (st : GoalStatus) :
    List (Nat × GoalStatus) :=
  match l with
  | [] => [(u, st)]
  | p :: rest => if p.1 == u then (u, st) :: rest else p :: upsertStatus rest u st

/-- `handle_status_msg` after a successful take of a `GoalStatusArray`,
destructured into `(uuid, status code)` pairs: for each pair, skip it unless
some result sender is registered for the uuid (`continue`); otherwise decode
the status code (`GoalStatus::from_rcl`, panic modelled as `none`) and upsert
the goal status store. -/
def handle_status_msg (arr : List (Nat × Int)) (s : ActionClientState) :
    Option ActionClientState :=
  match arr with
  | [] => some s
  | (u, code) :: rest =>
    if s.result_senders.any (fun p => p.1 == u) then
      match GoalStatus.from_rcl code with
      | some st => handle_status_msg rest { s with goal_status := upsertStatus s.goal_status u st }
      | none => none
    else handle_status_msg rest s

/-- `handle_result_response` after a successful take yielding sequence number
`reqId` and a response destructured into `(status code, result payload)`:
resolve the pending result-request entry by correlation id (no match: logged
and ignored), `swap_remove` it to obtain the goal uuid, then look up and
`swap_remove` the result sender for that uuid (no sink: response discarded).
Decode the status (panic on unknown code modelled as `none`); a status other
than `Succeeded` drops the sender without sending (logged); `Succeeded` sends
the payload, a failed send being logged. -/
def handle_result_response {ρ : Type} (alive : Nat → Bool) (reqId code : Int) (r : ρ)
    (s : ActionClientState) : Option (ActionClientState × ResultEffect ρ) :=
  match s.result_requests.findIdx? (fun p => p.1 == reqId) with
  | none => some (s, ResultEffect.noSuchId reqId)
  | some i =>
    match s.result_senders.findIdx? (fun p => p.1 == (s.result_requests.getD i (0, 0)).2) with
    | none => some ({ s with result_requests := swapRemoveAt s.result_requests i },
                    ResultEffect.noSink)
    | some j =>
      match GoalStatus.from_rcl code with
      | none => none
      | some st =>
        if st ≠ GoalStatus.Succeeded then
          some ({ s with result_requests := swapRemoveAt s.result_requests i,
                         result_senders := swapRemoveAt s.result_senders j },
                ResultEffect.droppedSink (s.result_senders.getD j (0, 0)).2 st)
        else if alive (s.result_senders.getD j (0, 0)).2 then
          some ({ s with result_requests := swapRemoveAt s.result_requests i,
                         result_senders := swapRemoveAt s.result_senders j },
                ResultEffect.delivered (s.result_senders.getD j (0, 0)).2 r)
        else
          some ({ s with result_requests := swapRemoveAt s.result_requests i,
                         result_senders := swapRemoveAt s.result_senders j },
                ResultEffect.sendFailed (s.result_senders.getD j (0, 0)).2)

/-- `send_cancel_request`: the transport call returned `ret` and wrote the
sequence number `seq_no`; `sink` is the sender half of the freshly created
one-shot channel.  On `RCL_RET_OK` the pending cancel entry is pushed and the
state returned (the associated future is `cancelFuture` below); otherwise the
transport error is returned to the caller and the state is untouched. -/
def send_cancel_request (ret seq_no : Int) (sink : Nat) (s : ActionClientState) :
    Except Error ActionClientState :=
  if ret = RCL_RET_OK then
    Except.ok { s with cancel_response_channels := s.cancel_response_channels ++ [(seq_no, sink)] }
  else Except.error (Error.from_rcl_error ret)

/-- The future returned by `send_cancel_request`:
`receiver.map_err(|_| Error::RCL_RET_CLIENT_INVALID).map(|r| match ...)`.
Input: what the one-shot receiver yields — `Except.error ()` when the sender
was dropped without sending (`oneshot::Canceled`), or `Except.ok r` with the
delivered cancel response.  The wildcard arm of the `match` on
`r.return_code` is a `panic!`, modelled as `none`. -/
def cancelFuture (recv : Except Unit CancelResponse) : Option (Except Error Unit) :=
  match recv with
  | Except.error _ => some (Except.error Error.RCL_RET_CLIENT_INVALID)
  | Except.ok r =>
    if r.return_code = 0 then some (Except.ok ())
    else if r.return_code = 1 then some (Except.error Error.GoalCancelRejected)
    else if r.return_code = 2 then some (Except.error Error.GoalCancelUnknownGoalID)
    else if r.return_code = 3 then some (Except.error Error.GoalCancelAlreadyTerminated)
    else none

/-- `send_result_request`: the transport call returned `ret` and wrote
`seq_no`.  On `RCL_RET_OK` the `(seq_no, uuid)` pending entry is pushed;
otherwise the failure is only logged to stderr — the Rust function returns
`()` either way, so the caller receives no error value. -/
def send_result_request (ret seq_no : Int) (uuid : Nat) (s : ActionClientState) :
    ActionClientState × SendResultEffect :=
  if ret = RCL_RET_OK then
    ({ s with result_requests := s.result_requests ++ [(seq_no, uuid)] }, SendResultEffect.registered seq_no)
  else (s, SendResultEffect.logFailed ret)

/-- Modelled from the spec: the spec's description of `requestResult`
("Transport send failure — reported synchronously to the caller ...; no table
entry created") as an operation returning the transport error to its caller.
This is the spec-side reference point for comparing against the source's
`send_result_request`, whose Rust signature returns `()`. -/
def send_result_request_specModel (ret seq_no : Int) (uuid : Nat) (s : ActionClientState) :
    Except Error ActionClientState :=
  if ret = RCL_RET_OK then
    Except.ok { s with result_requests := s.result_requests ++ [(seq_no, uuid)] }
  else Except.error (Error.from_rcl_error ret)

/-- `get_goal_status` helper: association-list lookup standing for
`HashMap::get`. -/
def lookupStatus (l : List (Nat × GoalStatus)) (u : Nat) : Option GoalStatus :=
  (l.find? (fun p => p.1 == u)).map Prod.snd

/-- `get_goal_status`: `*self.goal_status.get(uuid).unwrap_or(&Unknown)`. -/
def get_goal_status (s : ActionClientState) (u : Nat) : GoalStatus :=
  (lookupStatus s.goal_status u).getD GoalStatus.Unknown

/-- Sequential dispatch of a list of goal-response messages: the hosting loop
invoking `handle_goal_response` once per taken message, collecting the
per-step effects. -/
def runGoalResponses {α : Type} (alive : Nat → Bool) (msgs : List (Int × α))
    (s : ActionClientState) : ActionClientState × List (RespEffect α) :=
  match msgs with
  | [] => (s, [])
  | (id, r) :: rest =>
    let step := handle_goal_response alive id r s
    let next := runGoalResponses alive rest step.1
    (next.1, step.2 :: next.2)

/-- GoalStatus variants in declaration order, for stating the decoder's
order-correspondence. -/
def goalStatusOrder : List GoalStatus :=
  [.Unknown, .Accepted, .Executing, .Canceling, .Succeeded, .Canceled, .Aborted]

/-! ### Helper lemmas about the table operations -/

theorem findIdx_none_of_not_mem_fst {κ β : Type} [BEq κ] [LawfulBEq κ]
    (l : List (κ × β)) (k : κ) (h : k ∉ l.map Prod.fst) :
    l.findIdx? (fun p => p.1 == k) = none := by
  rw [List.findIdx?_eq_none_iff]
  intro x hx
  by_cases hk : x.1 = k
  · exact absurd (List.mem_map.mpr ⟨x, hx, hk⟩) h
  · simpa using hk

theorem findIdx_append_fresh {κ β : Type} [BEq κ] [LawfulBEq κ]
    (l : List (κ × β)) (k : κ) (b : β) (h : k ∉ l.map Prod.fst) :
    (l ++ [(k, b)]).findIdx? (fun p => p.1 == k) = some l.length := by
  rw [List.findIdx?_append, findIdx_none_of_not_mem_fst l k h]
  simp

theorem getD_append_length {β : Type} (l : List β) (b d : β) :
    (l ++ [b]).getD l.length d = b := by
  induction l with
  | nil => rfl
  | cons x xs ih => simp [ih]

theorem set_append_length {β : Type} (l : List β) (b : β) :
    (l ++ [b]).set l.length b = l ++ [b] := by
  induction l with
  | nil => rfl
  | cons x xs ih => simp [ih]

theorem swapRemoveAt_append_length {β : Type} (l : List β) (b : β) :
    swapRemoveAt (l ++ [b]) l.length = l := by
  unfold swapRemoveAt
  rw [List.getLast?_concat]
  show ((l ++ [b]).set l.length b).dropLast = l
  rw [set_append_length, List.dropLast_concat]

theorem swapRemoveAt_cons_zero {β : Type} (x : β) (xs : List β) :
    swapRemoveAt (x :: xs) 0 ~ xs := by
  cases xs with
  | nil => simp [swapRemoveAt]
  | cons y ys =>
    have hne : (y :: ys) ≠ [] := List.cons_ne_nil _ _
    unfold swapRemoveAt
    rw [List.getLast?_cons_cons, List.getLast?_eq_getLast_of_ne_nil hne]
    show ((x :: y :: ys).set 0 ((y :: ys).getLast hne)).dropLast ~ y :: ys
    rw [List.set_cons_zero, List.dropLast_cons₂]
    calc (y :: ys).getLast hne :: (y :: ys).dropLast
        ~ (y :: ys).dropLast ++ [(y :: ys).getLast hne] :=
          (List.perm_append_singleton _ _).symm
      _ = y :: ys := List.dropLast_append_getLast hne

theorem swapRemoveAt_cons_succ {β : Type} (x : β) (xs : List β) (i : Nat) (h : xs ≠ []) :
    swapRemoveAt (x :: xs) (i + 1) = x :: swapRemoveAt xs i := by
  cases xs with
  | nil => exact absurd rfl h
  | cons y ys =>
    have hne : (y :: ys) ≠ [] := List.cons_ne_nil _ _
    unfold swapRemoveAt
    rw [List.getLast?_cons_cons, List.getLast?_eq_getLast_of_ne_nil hne]
    show ((x :: y :: ys).set (i + 1) ((y :: ys).getLast hne)).dropLast =
      x :: ((y :: ys).set i ((y :: ys).getLast hne)).dropLast
    rw [List.set_cons_succ]
    cases i with
    | zero => rw [List.set_cons_zero, List.dropLast_cons₂]
    | succ n => rw [List.set_cons_succ, List.dropLast_cons₂]

/-- Resolution of a correlation table with pairwise-distinct ids: the first
index matching a registered id `k` exists, names the unique `(k, sink)` entry,
and `swap_remove` at it leaves exactly the entries whose id differs from `k`
(up to order). -/
theorem resolve_spec (l : List (Int × Nat)) (k : Int)
    (hnd : (l.map Prod.fst).Nodup) (hmem : k ∈ l.map Prod.fst) :
    ∃ i sink, l.findIdx? (fun p => p.1 == k) = some i ∧
      l.getD i (0, 0) = (k, sink) ∧ (k, sink) ∈ l ∧
      swapRemoveAt l i ~ l.filter (fun p => !(p.1 == k)) := by
  induction l with
  | nil => simp at hmem
  | cons a rest ih =>
    by_cases hak : a.1 = k
    · refine ⟨0, a.2, ?_, ?_, ?_, ?_⟩
      · simp [hak]
      · simp [← hak]
      · rw [← hak]; exact List.mem_cons_self a rest
      · have hknotin : k ∉ rest.map Prod.fst := by
          rw [← hak]; exact (List.nodup_cons.mp hnd).1
        have hfilter : rest.filter (fun p => !(p.1 == k)) = rest := by
          rw [List.filter_eq_self]
          intro p hp
          have hpk : p.1 ≠ k := fun hpk => hknotin (List.mem_map.mpr ⟨p, hp, hpk⟩)
          simp [hpk]
        have hfc : (a :: rest).filter (fun p => !(p.1 == k)) = rest := by
          rw [List.filter_cons]
          simp [hak, hfilter]
        rw [hfc]
        exact swapRemoveAt_cons_zero a rest
    · have hmem' : k ∈ rest.map Prod.fst := by
        rcases List.mem_map.mp hmem with ⟨p, hp, hpk⟩
        rcases List.mem_cons.mp hp with rfl | hp'
        · exact absurd hpk hak
        · exact List.mem_map.mpr ⟨p, hp', hpk⟩
      obtain ⟨i, sink, hfind, hget, hin, hperm⟩ := ih (List.nodup_cons.mp hnd).2 hmem'
      have hrest : rest ≠ [] := by
        intro hr; rw [hr] at hmem'; simp at hmem'
      refine ⟨i + 1, sink, ?_, ?_, ?_, ?_⟩
      · rw [List.findIdx?_cons]
        have hb : (a.1 == k) = false := by simp [hak]
        rw [hb]
        simp [List.findIdx?_succ, hfind]
      · simpa using hget
      · exact List.mem_cons_of_mem a hin
      · rw [swapRemoveAt_cons_succ a rest i hrest]
        have : (a :: rest).filter (fun p => !(p.1 == k)) =
            a :: rest.filter (fun p => !(p.1 == k)) := by
          simp [List.filter_cons, hak]
        rw [this]
        exact hperm.cons a

/-- A small concrete client state used by the witness theorems: two pending
goal responses, one pending cancel, one pending result request for goal 7
with its result sink 40, and a feedback sink 30 for goal 7. -/
def exS : ActionClientState :=
  { goal_response_channels := [(1, 10), (2, 11)]
    cancel_response_channels := [(5, 20)]
    feedback_senders := [(7, 30)]
    result_requests := [(3, 7)]
    result_senders := [(7, 40)]
    goal_status := [] }

/-! ### Claim theorems -/

/-- C8: `GoalStatus::from_rcl` maps codes 0–6 to the `GoalStatus` variants in
declaration order (the `c`-th element of `goalStatusOrder`), and for every
code outside 0–6 decoding is a fatal error: the decoder panics (modelled as
`none`) and never returns a `GoalStatus`. -/
theorem C8_status_decoder (c : Int) :
    GoalStatus.from_rcl c =
      (if 0 ≤ c ∧ c < 7 then goalStatusOrder.get? c.toNat else none) := by
  by_cases h : 0 ≤ c ∧ c < 7
  · rw [if_pos h]
    obtain ⟨h0, h7⟩ := h
    interval_cases c <;> rfl
  · rw [if_neg h]
    unfold GoalStatus.from_rcl
    split_ifs with h0 h1 h2 h3 h4 h5 h6 <;> first | rfl | omega

/-- C2: for a cancel request whose transport send succeeded (registering a
fresh pending entry, sink `sink`) and whose response is later matched by
`handle_cancel_response`, the response is delivered to that sink exactly once
(the entry being removed on match), and the future returned by
`send_cancel_request` maps the response's numeric outcome code as
0 ↦ success, 1 ↦ `GoalCancelRejected`, 2 ↦ `GoalCancelUnknownGoalID`,
3 ↦ `GoalCancelAlreadyTerminated`; any other code panics (a fatal protocol
violation, modelled as `none`). -/
theorem C2_cancel_outcome (alive : Nat → Bool) (seq : Int) (sink : Nat)
    (resp : CancelResponse) (s s' : ActionClientState)
    (hsend : send_cancel_request 0 seq sink s = Except.ok s')
    (hfresh : seq ∉ s.cancel_response_channels.map Prod.fst)
    (halive : alive sink = true) :
    handle_cancel_response alive seq resp s' =
      ({ s' with cancel_response_channels := s.cancel_response_channels },
       RespEffect.delivered sink resp) ∧
    cancelFuture (Except.ok resp) =
      (if resp.return_code = 0 then some (Except.ok ())
       else if resp.return_code = 1 then some (Except.error Error.GoalCancelRejected)
       else if resp.return_code = 2 then some (Except.error Error.GoalCancelUnknownGoalID)
       else if resp.return_code = 3 then some (Except.error Error.GoalCancelAlreadyTerminated)
       else none) := by
  have hs' : { s with cancel_response_channels :=
      s.cancel_response_channels ++ [(seq, sink)] } = s' := by
    have h := hsend
    unfold send_cancel_request at h
    simp only [RCL_RET_OK, if_pos rfl] at h
    exact (Except.ok.injEq _ _).mp h
  subst hs'
  constructor
  · simp only [handle_cancel_response,
      findIdx_append_fresh s.cancel_response_channels seq sink hfresh]
    rw [getD_append_length, swapRemoveAt_append_length]
    simp [halive]
  · rfl

/-- Witness for C2: cancel correlation id 9 with sink 2 over `exS`, response
outcome code 1 (`Rejected`). -/
theorem C2_cancel_outcome_witness :
    handle_cancel_response (fun _ => true) 9 { return_code := (1 : Int) }
        { exS with cancel_response_channels := [(5, 20), (9, 2)] } =
      (exS, RespEffect.delivered 2 { return_code := (1 : Int) }) ∧
    cancelFuture (Except.ok { return_code := (1 : Int) }) =
      some (Except.error Error.GoalCancelRejected) :=
  C2_cancel_outcome (fun _ => true) 9 2 { return_code := (1 : Int) } exS
    { exS with cancel_response_channels := [(5, 20), (9, 2)] } rfl (by decide) rfl

/-- C5 counterexample: at the failing transport return code `-1`,
`send_result_request` leaves the state unchanged and merely logs the code —
its Rust return type is `()`, so no transport error reaches the caller —
whereas the operation the spec describes (`send_result_request_specModel`)
reports `Error::from_rcl_error(-1)` synchronously. -/
theorem C5_counterexample :
    send_result_request (-1) 7 3 exS = (exS, SendResultEffect.logFailed (-1)) ∧
    send_result_request_specModel (-1) 7 3 exS =
      Except.error (Error.from_rcl_error (-1)) := by
  constructor <;> rfl

/-- C5 (amended): on transport send failure no pending entry is created and
the client state is unchanged by either operation; `send_cancel_request`
additionally reports the transport error synchronously to its caller, while
`send_result_request` (whose return type is `()`) only logs it to stderr. -/
theorem C5_send_failure (ret seq : Int) (sink uuid : Nat) (s : ActionClientState)
    (h : ret ≠ RCL_RET_OK) :
    send_cancel_request ret seq sink s = Except.error (Error.from_rcl_error ret) ∧
    send_result_request ret seq uuid s = (s, SendResultEffect.logFailed ret) := by
  unfold send_cancel_request send_result_request
  rw [if_neg h, if_neg h]
  exact ⟨rfl, rfl⟩

/-- Witness for C5 (amended) at transport return code `-1`. -/
theorem C5_send_failure_witness :
    send_cancel_request (-1) 7 2 exS = Except.error (Error.from_rcl_error (-1)) ∧
    send_result_request (-1) 7 3 exS = (exS, SendResultEffect.logFailed (-1)) :=
  C5_send_failure (-1) 7 2 3 exS (by decide)

/-- C6: an inbound goal-response, cancel-response or result-response message
whose correlation id matches no pending entry of the corresponding table is
discarded: each handler is a total function (no panic) that returns the state
fully unchanged — every table, both routers and the goal status store are
exactly as before — producing only a log of the unknown id. -/
theorem C6_unknown_correlation {α ρ : Type} (alive : Nat → Bool) (reqId : Int)
    (r : α) (resp : CancelResponse) (code : Int) (res : ρ) (s : ActionClientState) :
    (reqId ∉ s.goal_response_channels.map Prod.fst →
       handle_goal_response alive reqId r s = (s, RespEffect.noSuchId reqId)) ∧
    (reqId ∉ s.cancel_response_channels.map Prod.fst →
       handle_cancel_response alive reqId resp s = (s, RespEffect.noSuchId reqId)) ∧
    (reqId ∉ s.result_requests.map Prod.fst →
       handle_result_response alive reqId code res s =
         some (s, ResultEffect.noSuchId reqId)) := by
  refine ⟨fun h => ?_, fun h => ?_, fun h => ?_⟩
  · simp [handle_goal_response, findIdx_none_of_not_mem_fst _ _ h]
  · simp [handle_cancel_response, findIdx_none_of_not_mem_fst _ _ h]
  · simp [handle_result_response, findIdx_none_of_not_mem_fst _ _ h]

/-- Witness for C6: correlation id 99 is pending in no table of `exS`. -/
theorem C6_unknown_correlation_witness :
    (handle_goal_response (fun _ => true) 99 (0 : Nat) exS = (exS, RespEffect.noSuchId 99)) ∧
    (handle_cancel_response (fun _ => true) 99 { return_code := (0 : Int) } exS =
      (exS, RespEffect.noSuchId 99)) ∧
    (handle_result_response (fun _ => true) 99 4 (0 : Nat) exS =
      some (exS, ResultEffect.noSuchId 99)) :=
  ⟨(C6_unknown_correlation (fun _ => true) 99 (0 : Nat) { return_code := (0 : Int) } 4
      (0 : Nat) exS).1 (by decide),
   (C6_unknown_correlation (fun _ => true) 99 (0 : Nat) { return_code := (0 : Int) } 4
      (0 : Nat) exS).2.1 (by decide),
   (C6_unknown_correlation (fun _ => true) 99 (0 : Nat) { return_code := (0 : Int) } 4
      (0 : Nat) exS).2.2 (by decide)⟩

/-- C7: feedback handling never mutates the client state (first conjunct, for
every input); a feedback message whose goal has a registered streaming sink
that is currently full is dropped with only a warning — no error reaches the
dispatch path, which the total, non-suspending handler never blocks — and a
message whose goal has no registered sink is silently discarded. -/
theorem C7_feedback {φ : Type} (trySend : Nat → Bool) (uuid : Nat) (f : φ)
    (s : ActionClientState) :
    (handle_feedback_msg trySend uuid f s).1 = s ∧
    (∀ pr, s.feedback_senders.find? (fun p => p.1 == uuid) = some pr →
       trySend pr.2 = false →
       (handle_feedback_msg trySend uuid f s).2 = FeedbackEffect.warnDropped pr.2) ∧
    (s.feedback_senders.find? (fun p => p.1 == uuid) = none →
       (handle_feedback_msg trySend uuid f s).2 = FeedbackEffect.discarded) := by
  refine ⟨?_, fun pr hpr hts => ?_, fun hn => ?_⟩
  · rcases h : s.feedback_senders.find? (fun p => p.1 == uuid) with _ | pr <;>
      simp [handle_feedback_msg, h]
  · simp [handle_feedback_msg, hpr, hts]
  · simp [handle_feedback_msg, hn]

/-- Witness for C7: goal 7 has the (full) sink 30 in `exS`; goal 99 has no
sink. -/
theorem C7_feedback_witness :
    (handle_feedback_msg (fun _ => false) 7 (3 : Nat) exS).2 =
      FeedbackEffect.warnDropped 30 ∧
    (handle_feedback_msg (fun _ => false) 99 (3 : Nat) exS).2 =
      FeedbackEffect.discarded :=
  ⟨(C7_feedback (fun _ => false) 7 (3 : Nat) exS).2.1 (7, 30) (by decide) rfl,
   (C7_feedback (fun _ => false) 99 (3 : Nat) exS).2.2 (by decide)⟩

/-- C9 counterexample: at a concrete state with pending cancel entry
`(5, sink 20)` and the future's consumer already gone (`alive` constantly
false), `handle_cancel_response` resolves the entry with a logged send
failure — no `ClientInvalid` outcome is produced anywhere on this path. -/
theorem C9_counterexample :
    handle_cancel_response (fun _ => false) 5 { return_code := (0 : Int) } exS =
      ({ exS with cancel_response_channels := [] }, RespEffect.sendFailed 20) := by
  decide

/-- C9 (amended): `ClientInvalid` is what the cancel future reports when the
pending entry's sender is dropped before resolution (the one-shot receiver
yields `Canceled`, mapped to `RCL_RET_CLIENT_INVALID`); when instead the
future's consumer is gone at resolution time, the handler's failed send is
logged as a warning and not escalated, the pending entry still being removed
on match. -/
theorem C9_client_invalid (alive : Nat → Bool) (reqId : Int) (resp : CancelResponse)
    (s : ActionClientState) (i : Nat) (seq : Int) (sink : Nat)
    (h1 : s.cancel_response_channels.findIdx? (fun p => p.1 == reqId) = some i)
    (h2 : s.cancel_response_channels.getD i (0, 0) = (seq, sink))
    (hdead : alive sink = false) :
    handle_cancel_response alive reqId resp s =
      ({ s with cancel_response_channels := swapRemoveAt s.cancel_response_channels i },
       RespEffect.sendFailed sink) ∧
    cancelFuture (Except.error ()) = some (Except.error Error.RCL_RET_CLIENT_INVALID) := by
  constructor
  · simp only [handle_cancel_response, h1, h2]
    simp [hdead]
  · rfl

/-- Witness for C9 (amended) over `exS` with a dead consumer on sink 20. -/
theorem C9_client_invalid_witness :
    (handle_cancel_response (fun _ => false) 5 { return_code := (1 : Int) } exS =
      ({ exS with cancel_response_channels := [] }, RespEffect.sendFailed 20)) ∧
    cancelFuture (Except.error ()) = some (Except.error Error.RCL_RET_CLIENT_INVALID) :=
  C9_client_invalid (fun _ => false) 5 { return_code := (1 : Int) } exS 0 5 20
    (by decide) (by decide) rfl

/-- C10: a result response that matches a pending result-request entry whose
goal has no registered result sink still removes that pending entry and
discards the response; only `result_requests` changes — the result sinks,
feedback sinks, goal status store and the other correlation tables are
untouched. -/
theorem C10_no_sink {ρ : Type} (alive : Nat → Bool) (reqId code : Int) (r : ρ)
    (s : ActionClientState) (i : Nat)
    (h1 : s.result_requests.findIdx? (fun p => p.1 == reqId) = some i)
    (h2 : s.result_senders.findIdx?
        (fun p => p.1 == (s.result_requests.getD i (0, 0)).2) = none) :
    handle_result_response alive reqId code r s =
      some ({ s with result_requests := swapRemoveAt s.result_requests i },
            ResultEffect.noSink) := by
  simp only [handle_result_response, h1, h2]

/-- Witness for C10: `exS` with the result sink for goal 7 deregistered. -/
theorem C10_no_sink_witness :
    handle_result_response (fun _ => true) 3 4 (0 : Nat)
        { exS with result_senders := [] } =
      some ({ exS with result_senders := [], result_requests := [] },
            ResultEffect.noSink) :=
  C10_no_sink (fun _ => true) 3 4 (0 : Nat) { exS with result_senders := [] } 0
    (by decide) (by decide)

/-- C1: when a result response matches a pending result-request entry whose
goal has a registered result sink, both the pending entry and the sink entry
are removed in that same handler step; a decoded status other than
`Succeeded` drops the sink without delivering any payload, while status
`Succeeded` delivers the payload to that sink exactly once — the single send
of this step, re-delivery being impossible as the sink entry is gone. -/
theorem C1_result_delivery {ρ : Type} (alive : Nat → Bool) (reqId code : Int) (r : ρ)
    (s : ActionClientState) (i j : Nat) (uuid sink : Nat) (st : GoalStatus)
    (h1 : s.result_requests.findIdx? (fun p => p.1 == reqId) = some i)
    (h2 : s.result_requests.getD i (0, 0) = (reqId, uuid))
    (h3 : s.result_senders.findIdx? (fun p => p.1 == uuid) = some j)
    (h4 : s.result_senders.getD j (0, 0) = (uuid, sink))
    (h5 : GoalStatus.from_rcl code = some st) :
    (st ≠ GoalStatus.Succeeded →
       handle_result_response alive reqId code r s =
         some ({ s with result_requests := swapRemoveAt s.result_requests i,
                        result_senders := swapRemoveAt s.result_senders j },
               ResultEffect.droppedSink sink st)) ∧
    (st = GoalStatus.Succeeded → alive sink = true →
       handle_result_response alive reqId code r s =
         some ({ s with result_requests := swapRemoveAt s.result_requests i,
                        result_senders := swapRemoveAt s.result_senders j },
               ResultEffect.delivered sink r)) := by
  constructor
  · intro hst
    have h4' : (s.result_senders.getD j (0, 0)).2 = sink := by rw [h4]
    simp only [handle_result_response, h1, h2, h3, h5, h4']
    simp [hst]
  · intro hst halive
    have h4' : (s.result_senders.getD j (0, 0)).2 = sink := by rw [h4]
    simp only [handle_result_response, h1, h2, h3, h5, h4']
    simp [hst, halive]

/-- Witness for C1: the result response for request 3 (goal 7, sink 40) with
status code 6 (`Aborted`) drops the sink undelivered. -/
theorem C1_result_delivery_witness :
    handle_result_response (fun _ => true) 3 6 (0 : Nat) exS =
      some ({ exS with result_requests := [], result_senders := [] },
            ResultEffect.droppedSink 40 GoalStatus.Aborted) :=
  (C1_result_delivery (fun _ => true) 3 6 (0 : Nat) exS 0 0 7 40 GoalStatus.Aborted
      (by decide) (by decide) (by decide) (by decide) (by decide)).1 (by decide)

/-! ### Goal status store lemmas (for C4) -/

theorem lookup_upsert_self (l : List (Nat × GoalStatus)) (u : Nat) (st : GoalStatus) :
    lookupStatus (upsertStatus l u st) u = some st := by
  induction l with
  | nil => simp [upsertStatus, lookupStatus]
  | cons p rest ih =>
    by_cases h : p.1 = u
    · simp [upsertStatus, lookupStatus, h]
    · simp only [upsertStatus]
      rw [if_neg (by simp [h])]
      simp only [lookupStatus] at ih ⊢
      rw [List.find?_cons_of_neg _ (by simp [h])]
      exact ih

theorem lookup_upsert_ne (l : List (Nat × GoalStatus)) (v u : Nat) (st : GoalStatus)
    (h : v ≠ u) :
    lookupStatus (upsertStatus l v st) u = lookupStatus l u := by
  induction l with
  | nil => simp [upsertStatus, lookupStatus, h]
  | cons p rest ih =>
    by_cases hp : p.1 = v
    · simp only [upsertStatus]
      rw [if_pos (by simp [hp])]
      simp only [lookupStatus]
      rw [List.find?_cons_of_neg _ (by simp [h]),
          List.find?_cons_of_neg _ (by simp [hp, h])]
    · simp only [upsertStatus]
      rw [if_neg (by simp [hp])]
      by_cases hu : p.1 = u
      · simp only [lookupStatus]
        rw [List.find?_cons_of_pos _ (by simp [hu]), List.find?_cons_of_pos _ (by simp [hu])]
      · simp only [lookupStatus] at ih ⊢
        rw [List.find?_cons_of_neg _ (by simp [hu]), List.find?_cons_of_neg _ (by simp [hu])]
        exact ih

theorem handle_status_frame (arr : List (Nat × Int)) :
    ∀ (s s' : ActionClientState), handle_status_msg arr s = some s' →
      s'.goal_response_channels = s.goal_response_channels ∧
      s'.cancel_response_channels = s.cancel_response_channels ∧
      s'.feedback_senders = s.feedback_senders ∧
      s'.result_requests = s.result_requests ∧
      s'.result_senders = s.result_senders := by
  induction arr with
  | nil =>
    intro s s' h
    simp only [handle_status_msg, Option.some.injEq] at h
    subst h
    exact ⟨rfl, rfl, rfl, rfl, rfl⟩
  | cons p rest ih =>
    intro s s' h
    obtain ⟨u, code⟩ := p
    simp only [handle_status_msg] at h
    by_cases hreg : s.result_senders.any (fun q => q.1 == u) = true
    · rw [if_pos hreg] at h
      cases hc : GoalStatus.from_rcl code with
      | none => simp only [hc] at h; simp at h
      | some st =>
        simp only [hc] at h
        have hrec := ih _ _ h
        exact hrec
    · rw [if_neg hreg] at h
      exact ih _ _ h

theorem handle_status_lookup_isSome (arr : List (Nat × Int)) (u : Nat) :
    ∀ (s s' : ActionClientState), handle_status_msg arr s = some s' →
      (lookupStatus s.goal_status u).isSome = true →
      (lookupStatus s'.goal_status u).isSome = true := by
  induction arr with
  | nil =>
    intro s s' h hs
    simp only [handle_status_msg, Option.some.injEq] at h
    subst h; exact hs
  | cons p rest ih =>
    intro s s' h hs
    obtain ⟨v, code⟩ := p
    simp only [handle_status_msg] at h
    by_cases hreg : s.result_senders.any (fun q => q.1 == v) = true
    · rw [if_pos hreg] at h
      cases hc : GoalStatus.from_rcl code with
      | none => simp only [hc] at h; simp at h
      | some st =>
        simp only [hc] at h
        refine ih _ _ h ?_
        by_cases hv : v = u
        · subst hv; rw [lookup_upsert_self]; rfl
        · rw [lookup_upsert_ne _ _ _ _ hv]; exact hs
    · rw [if_neg hreg] at h
      exact ih _ _ h hs

theorem handle_status_unregistered_lookup (arr : List (Nat × Int)) (u : Nat) :
    ∀ (s s' : ActionClientState), handle_status_msg arr s = some s' →
      s.result_senders.any (fun p => p.1 == u) = false →
      lookupStatus s'.goal_status u = lookupStatus s.goal_status u := by
  induction arr with
  | nil =>
    intro s s' h _
    simp only [handle_status_msg, Option.some.injEq] at h
    subst h; rfl
  | cons p rest ih =>
    intro s s' h hu
    obtain ⟨v, code⟩ := p
    simp only [handle_status_msg] at h
    by_cases hreg : s.result_senders.any (fun q => q.1 == v) = true
    · rw [if_pos hreg] at h
      cases hc : GoalStatus.from_rcl code with
      | none => simp only [hc] at h; simp at h
      | some st =>
        simp only [hc] at h
        have hvu : v ≠ u := by
          intro he
          subst he
          rw [hreg] at hu
          exact Bool.true_eq_false.mp hu
        have hrec := ih _ _ h hu
        rw [hrec, lookup_upsert_ne _ _ _ _ hvu]
    · rw [if_neg hreg] at h
      exact ih _ _ h hu

theorem handle_status_registered_mem (u : Nat) (c : Int) (arr : List (Nat × Int)) :
    ∀ (s s' : ActionClientState), handle_status_msg arr s = some s' →
      (u, c) ∈ arr →
      s.result_senders.any (fun p => p.1 == u) = true →
      (lookupStatus s'.goal_status u).isSome = true := by
  induction arr with
  | nil => intro s s' _ hmem _; simp at hmem
  | cons p rest ih =>
    intro s s' h hmem hreg
    obtain ⟨v, code⟩ := p
    rcases List.mem_cons.mp hmem with heq | hmem'
    · obtain ⟨rfl, rfl⟩ : u = v ∧ c = code := by
        exact ⟨congrArg Prod.fst heq, congrArg Prod.snd heq⟩
      simp only [handle_status_msg] at h
      rw [if_pos hreg] at h
      cases hc : GoalStatus.from_rcl c with
      | none => simp only [hc] at h; simp at h
      | some st =>
        simp only [hc] at h
        refine handle_status_lookup_isSome rest u _ _ h ?_
        rw [lookup_upsert_self]; rfl
    · simp only [handle_status_msg] at h
      by_cases hreg2 : s.result_senders.any (fun q => q.1 == v) = true
      · rw [if_pos hreg2] at h
        cases hc : GoalStatus.from_rcl code with
        | none => simp only [hc] at h; simp at h
        | some st => simp only [hc] at h; exact ih _ _ h hmem' hreg
      · rw [if_neg hreg2] at h
        exact ih _ _ h hmem' hreg

/-- C4: a status broadcast touches the goal status store only for goals that
currently have a registered result sink.  Given a completed run of
`handle_status_msg`: the set of registered result sinks itself is unchanged;
every goal without a registered sink keeps exactly its previous status entry
(in particular, pairs for such goals leave the store unchanged); every
broadcast pair whose goal has a registered sink ends with an entry present in
the store; and, pair-wise, a single-pair broadcast leaves the whole state
untouched when the sink is absent, and performs exactly the status upsert
when the sink is present and the code decodes. -/
theorem C4_status_gating (arr : List (Nat × Int)) (s s' : ActionClientState)
    (h : handle_status_msg arr s = some s') :
    s'.result_senders = s.result_senders ∧
    (∀ u : Nat, s.result_senders.any (fun p => p.1 == u) = false →
       lookupStatus s'.goal_status u = lookupStatus s.goal_status u) ∧
    (∀ (u : Nat) (c : Int), (u, c) ∈ arr →
       s.result_senders.any (fun p => p.1 == u) = true →
       (lookupStatus s'.goal_status u).isSome = true) ∧
    (∀ (u : Nat) (c : Int) (s0 : ActionClientState),
       s0.result_senders.any (fun p => p.1 == u) = false →
       handle_status_msg [(u, c)] s0 = some s0) ∧
    (∀ (u : Nat) (c : Int) (st : GoalStatus) (s0 : ActionClientState),
       s0.result_senders.any (fun p => p.1 == u) = true →
       GoalStatus.from_rcl c = some st →
       handle_status_msg [(u, c)] s0 =
         some { s0 with goal_status := upsertStatus s0.goal_status u st }) := by
  refine ⟨(handle_status_frame arr s s' h).2.2.2.2,
          fun u hu => handle_status_unregistered_lookup arr u s s' h hu,
          fun u c hmem hreg => handle_status_registered_mem u c arr s s' h hmem hreg,
          fun u c s0 h0 => ?_, fun u c st s0 h0 hc => ?_⟩
  · simp [handle_status_msg, h0]
  · simp [handle_status_msg, h0, hc]

/-- Witness for C4: broadcast `[(7, 4), (99, 2)]` over `exS` — goal 7 has a
result sink and gets status `Succeeded`; goal 99 has none and stays absent. -/
theorem C4_status_gating_witness :
    lookupStatus ({ exS with goal_status := [(7, GoalStatus.Succeeded)] }).goal_status 99 =
      lookupStatus exS.goal_status 99 ∧
    (lookupStatus ({ exS with
        goal_status := [(7, GoalStatus.Succeeded)] }).goal_status 7).isSome = true :=
  ⟨(C4_status_gating [(7, 4), (99, 2)] exS
      { exS with goal_status := [(7, GoalStatus.Succeeded)] } (by decide)).2.1 99 (by decide),
   (C4_status_gating [(7, 4), (99, 2)] exS
      { exS with goal_status := [(7, GoalStatus.Succeeded)] } (by decide)).2.2.1 7 4
     (by decide) (by decide)⟩

/-- Sequential-dispatch invariant behind C3: over a table with pairwise
distinct pending ids and live consumers, a sequence of goal responses with
pairwise distinct ids, all pending, delivers each response to the entry
carrying its id and ends with exactly the unmatched entries. -/
theorem runGoalResponses_spec {α : Type} (alive : Nat → Bool) (halive : ∀ k, alive k = true)
    (msgs : List (Int × α)) :
    ∀ s : ActionClientState,
      (s.goal_response_channels.map Prod.fst).Nodup →
      (msgs.map Prod.fst).Nodup →
      (∀ m ∈ msgs, m.1 ∈ s.goal_response_channels.map Prod.fst) →
      (runGoalResponses alive msgs s).2.length = msgs.length ∧
      (∀ pr ∈ msgs.zip (runGoalResponses alive msgs s).2,
         ∃ sink, (pr.1.1, sink) ∈ s.goal_response_channels ∧
           pr.2 = RespEffect.delivered sink pr.1.2) ∧
      (runGoalResponses alive msgs s).1.goal_response_channels ~
        s.goal_response_channels.filter
          (fun p => !decide (p.1 ∈ msgs.map Prod.fst)) := by
  induction msgs with
  | nil =>
    intro s _ _ _
    refine ⟨rfl, by simp [runGoalResponses], ?_⟩
    have hf : s.goal_response_channels.filter
        (fun p => !decide (p.1 ∈ ([] : List (Int × α)).map Prod.fst)) =
        s.goal_response_channels := by
      simp
    rw [hf]
    exact List.Perm.refl _
  | cons m rest ih =>
    intro s hnd hmd hmem
    obtain ⟨id, r⟩ := m
    obtain ⟨i, sink, hfind, hget, hin, hperm⟩ :=
      resolve_spec s.goal_response_channels id hnd (hmem (id, r) (List.mem_cons_self _ _))
    have hget2 : (s.goal_response_channels.getD i (0, 0)).2 = sink := by rw [hget]
    have hstep : handle_goal_response alive id r s =
        ({ s with goal_response_channels := swapRemoveAt s.goal_response_channels i },
         RespEffect.delivered sink r) := by
      simp only [handle_goal_response, hfind, hget2, halive sink, if_true]
    have hrun : runGoalResponses alive ((id, r) :: rest) s =
        ((runGoalResponses alive rest
            { s with goal_response_channels := swapRemoveAt s.goal_response_channels i }).1,
         RespEffect.delivered sink r ::
           (runGoalResponses alive rest
            { s with goal_response_channels := swapRemoveAt s.goal_response_channels i }).2) := by
      simp only [runGoalResponses, hstep]
    have hmd' : (rest.map Prod.fst).Nodup := by
      simp only [List.map_cons] at hmd
      exact (List.nodup_cons.mp hmd).2
    have hidnot : id ∉ rest.map Prod.fst := by
      simp only [List.map_cons] at hmd
      exact (List.nodup_cons.mp hmd).1
    have hnd1 : ((swapRemoveAt s.goal_response_channels i).map Prod.fst).Nodup := by
      have hsub : (s.goal_response_channels.filter (fun p => !(p.1 == id))).map Prod.fst <+
          s.goal_response_channels.map Prod.fst :=
        (List.filter_sublist _).map Prod.fst
      exact ((hperm.map Prod.fst).nodup_iff).mpr (hsub.nodup hnd)
    have hmem1 : ∀ m' ∈ rest,
        m'.1 ∈ (swapRemoveAt s.goal_response_channels i).map Prod.fst := by
      intro m' hm'
      have hne : m'.1 ≠ id := by
        intro he
        exact hidnot (he ▸ List.mem_map.mpr ⟨m', hm', rfl⟩)
      rcases List.mem_map.mp (hmem m' (List.mem_cons_of_mem _ hm')) with ⟨p, hp, hpfst⟩
      have hpf : p ∈ s.goal_response_channels.filter (fun q => !(q.1 == id)) :=
        List.mem_filter.mpr ⟨hp, by rw [hpfst]; simp [hne]⟩
      exact List.mem_map.mpr ⟨p, (hperm.mem_iff).mpr hpf, hpfst⟩
    obtain ⟨ihlen, ihzip, ihperm⟩ := ih
      { s with goal_response_channels := swapRemoveAt s.goal_response_channels i }
      hnd1 hmd' hmem1
    refine ⟨?_, ?_, ?_⟩
    · rw [hrun]
      simp [ihlen]
    · rw [hrun]
      intro pr hpr
      rcases List.mem_cons.mp (by simpa using hpr) with heq | htail
      · exact ⟨sink, by rw [heq]; exact hin, by rw [heq]⟩
      · obtain ⟨sk, hskmem, hskeq⟩ := ihzip pr htail
        refine ⟨sk, ?_, hskeq⟩
        exact List.mem_of_mem_filter ((hperm.mem_iff).mp hskmem)
    · rw [hrun]
      have h1 : (runGoalResponses alive rest
            { s with goal_response_channels := swapRemoveAt s.goal_response_channels i
            }).1.goal_response_channels ~
          (s.goal_response_channels.filter (fun p => !(p.1 == id))).filter
            (fun p => !decide (p.1 ∈ rest.map Prod.fst)) :=
        ihperm.trans (hperm.filter _)
      have h2 : (s.goal_response_channels.filter (fun p => !(p.1 == id))).filter
            (fun p => !decide (p.1 ∈ rest.map Prod.fst)) =
          s.goal_response_channels.filter
            (fun p => !decide (p.1 ∈ ((id, r) :: rest).map Prod.fst)) := by
        rw [List.filter_filter]
        apply List.filter_congr
        intro a _
        by_cases hA : a.1 = id <;> by_cases hB : a.1 ∈ rest.map Prod.fst <;>
          simp [hA, hB, List.mem_cons]
      exact h2 ▸ h1

/-- C3: over a table of pending goal-response entries with pairwise distinct
correlation ids and live consumers, dispatching N goal-response messages with
pairwise distinct ids, each matching a pending entry, produces exactly N
resolution effects; each message delivers to the sink of the (unique) entry
of the original table carrying its id — since the table and message ids are
pairwise distinct, no entry is resolved twice — and the final table holds,
up to order, exactly the entries whose id was not matched.  The last conjunct
states the single handler step: the matched entry is removed by the same
invocation that delivers to it. -/
theorem C3_goal_response_sequence {α : Type} (alive : Nat → Bool)
    (msgs : List (Int × α)) (s : ActionClientState)
    (halive : ∀ k, alive k = true)
    (hnd : (s.goal_response_channels.map Prod.fst).Nodup)
    (hmd : (msgs.map Prod.fst).Nodup)
    (hmem : ∀ m ∈ msgs, m.1 ∈ s.goal_response_channels.map Prod.fst) :
    (runGoalResponses alive msgs s).2.length = msgs.length ∧
    (∀ pr ∈ msgs.zip (runGoalResponses alive msgs s).2,
       ∃ sink, (pr.1.1, sink) ∈ s.goal_response_channels ∧
         pr.2 = RespEffect.delivered sink pr.1.2) ∧
    (runGoalResponses alive msgs s).1.goal_response_channels ~
      s.goal_response_channels.filter
        (fun p => !decide (p.1 ∈ msgs.map Prod.fst)) ∧
    (∀ (id : Int) (r0 : α) (s0 : ActionClientState) (i : Nat) (sink : Nat),
       s0.goal_response_channels.findIdx? (fun p => p.1 == id) = some i →
       s0.goal_response_channels.getD i (0, 0) = (id, sink) →
       handle_goal_response alive id r0 s0 =
         ({ s0 with goal_response_channels := swapRemoveAt s0.goal_response_channels i },
          RespEffect.delivered sink r0)) := by
  obtain ⟨hlen, hzip, hperm⟩ := runGoalResponses_spec alive halive msgs s hnd hmd hmem
  refine ⟨hlen, hzip, hperm, fun id r0 s0 i sink hf hg => ?_⟩
  have hg2 : (s0.goal_response_channels.getD i (0, 0)).2 = sink := by rw [hg]
  simp only [handle_goal_response, hf, hg2, halive sink, if_true]

/-- Witness for C3: the two pending goal responses of `exS`, answered in
order; both entries end up resolved and the table empties. -/
theorem C3_goal_response_sequence_witness :
    (runGoalResponses (fun _ => true) [((1 : Int), (5 : Nat)), (2, 6)] exS).1.goal_response_channels ~
      exS.goal_response_channels.filter
        (fun p => !decide (p.1 ∈ [((1 : Int), (5 : Nat)), (2, 6)].map Prod.fst)) :=
  (C3_goal_response_sequence (fun _ => true) [((1 : Int), (5 : Nat)), (2, 6)] exS
      (fun _ => rfl) (by decide) (by decide) (by decide)).2.2.1
